import Mathlib

/- Shallow embedding of src/api_server.py: a two-endpoint RAG HTTP service.
   Remote providers (embedding, vector search, chat completion) are modelled
   as injected functions returning either a value or a raised exception;
   each handler is a pure function from the providers and the request body
   to the HTTP response together with a trace of the provider calls it made
   and the log events it emitted. -/

namespace ApiServer

/-- A numeric embedding vector; its contents are opaque to this service. -/
abbrev Vec := List Int

/-- Exceptions that can propagate inside a handler body. -/
inductive Exn where
  | provider (msg : String)
  | indexError
  | typeError
deriving DecidableEq

/-- One element of the embeddings response data list (has an embedding field). -/
structure EmbeddingItem where
  embedding : Vec
deriving DecidableEq

/-- Response of openai_client.embeddings.create. -/
structure EmbeddingsResponse where
  data : List EmbeddingItem
deriving DecidableEq

/-- A scored point returned by qdrant_client.query_points: its payload is
either absent (None) or a string-keyed mapping, modelled as an association
list. -/
structure ScoredPoint where
  payload : Option (List (String × String))
deriving DecidableEq

/-- Response of qdrant_client.query_points (object with a points list). -/
structure QueryResponse where
  points : List ScoredPoint
deriving DecidableEq

/-- A chat message: role and content. -/
structure Message where
  role : String
  content : String
deriving DecidableEq

/-- One choice of a chat completion (its message content). -/
structure ChatChoice where
  message_content : String
deriving DecidableEq

/-- Response of openai_client.chat.completions.create. -/
structure ChatCompletion where
  choices : List ChatChoice
deriving DecidableEq

/-- The three provider clients, injected as pure stubs: each call either
returns a response or raises. -/
structure Providers where
  embeddings_create : String → String → Except Exn EmbeddingsResponse
  query_points : String → Vec → Nat → Bool → Except Exn QueryResponse
  chat_completions_create : List Message → String → Except Exn ChatCompletion

/-- Record of one embeddings.create call (input text and model id). -/
structure EmbedCall where
  input : String
  model : String
deriving DecidableEq

/-- Record of one query_points call (collection, vector, limit, with_payload). -/
structure SearchCall where
  collection_name : String
  query : Vec
  limit : Nat
  with_payload : Bool
deriving DecidableEq

/-- Record of one chat.completions.create call (messages and model id). -/
structure GenCall where
  messages : List Message
  model : String
deriving DecidableEq

/-- Trace of the provider calls a handler performed, in program order. -/
structure Trace where
  embedCalls : List EmbedCall
  searchCalls : List SearchCall
  genCalls : List GenCall
deriving DecidableEq

/-- Server-side log events emitted by the handlers. -/
inductive LogEvent where
  | fullTraceback (e : Exn)
  | messageOnly (e : Exn)
deriving DecidableEq

/-- HTTP-level outcome of a handler: a JSON answer body or an HTTPException. -/
inductive Response where
  | answer (text : String)
  | httpError (status_code : Nat) (detail : String)
deriving DecidableEq

/-- QDRANT_COLLECTION_NAME constant from the source. -/
def QDRANT_COLLECTION_NAME : String := "ai-spec-book-collection"

/-- EMBEDDING_MODEL constant from the source. -/
def EMBEDDING_MODEL : String := "text-embedding-3-small"

/-- LLM_MODEL constant from the source. -/
def LLM_MODEL : String := "gpt-3.5-turbo"

/-- The fixed refusal answer returned when no context chunks survive. -/
def REFUSAL_ANSWER : String :=
  "I can only answer questions using the contents of The Spec-Driven AI Engineer book."

/-- The generic detail string of the /chat error response. -/
def CHAT_ERROR_DETAIL : String := "Failed to process chat request."

/-- The generic detail string of the /chat/selective error response. -/
def SELECTIVE_ERROR_DETAIL : String := "Failed to process selective chat request."

/-- The fixed delimiter joining context chunks. -/
def CONTEXT_DELIMITER : String := "\n\n---\n\n"

/-- The refusal phrase named in the selective system prompt. -/
def SELECTIVE_REFUSAL : String :=
  "I cannot find the answer within the selected text portion."

/-- Python dict.get on a string-keyed mapping. -/
def dictGet (d : List (String × String)) (k : String) : Option String :=
  (d.find? (fun p => p.fst == k)).map Prod.snd

/-- Python truthiness of a payload: None and the empty mapping are falsy. -/
def payloadTruthy : Option (List (String × String)) → Bool
  | none => false
  | some d => !d.isEmpty

/-- The list comprehension on line 90 of the source:
[hit.payload.get("text") for hit in search_hits if hit.payload]. -/
def context_chunks (search_hits : List ScoredPoint) : List (Option String) :=
  (search_hits.filter (fun hit => payloadTruthy hit.payload)).map
    (fun hit =>
      match hit.payload with
      | some d => dictGet d "text"
      | none => none)

/-- All elements of the list that are strings, or None as soon as one
element is not a string (the order str.join type-checks its elements). -/
def pySeq : List (Option String) → Option (List String)
  | [] => some []
  | none :: _ => none
  | some s :: xs => (pySeq xs).map (fun ss => s :: ss)

/-- Python str.join over a list that may contain None: joining raises
TypeError when any element is not a string. -/
def pyJoin (sep : String) (xs : List (Option String)) : Except Exn String :=
  match pySeq xs with
  | none => Except.error Exn.typeError
  | some ss => Except.ok (String.intercalate sep ss)

/-- The fixed system prompt of the /chat handler (lines 98 to 102). -/
def rag_system_prompt : String :=
  "Answer the user\x27s question based ONLY on the provided context. If the context does not contain the answer, politely state, \x27I can only answer questions using the contents of The Spec-Driven AI Engineer book.\x27"

/-- The user message content of the /chat generation call (line 108). -/
def rag_user_content (combined_context query : String) : String :=
  "Context:\n" ++ combined_context ++ "\n\nQuestion: " ++ query

/-- Opening piece of the selective system prompt, up to the embedded context. -/
def SELECTIVE_PROMPT_HEAD : String :=
  "Answer the user\x27s question based ONLY on this SPECIFIC selected text: \x27"

/-- Closing piece of the selective system prompt, after the embedded context. -/
def SELECTIVE_PROMPT_TAIL : String :=
  "\x27. Do not use any other knowledge. If the answer is not in this exact text, state, \x27I cannot find the answer within the selected text portion.\x27"

/-- The system prompt of the /chat/selective handler (lines 131 to 135): the
caller-supplied context string is interpolated literally. -/
def selective_system_prompt (context : String) : String :=
  SELECTIVE_PROMPT_HEAD ++ context ++ SELECTIVE_PROMPT_TAIL

/-- Body of the try block of the /chat handler (lines 67 to 114): embed the
query, search the collection, assemble context (or short-circuit to the
refusal answer), and call the generation model. Returns the outcome of the
block together with the trace of provider calls. -/
def rag_chat_try (P : Providers) (query : String) : Except Exn Response × Trace :=
  match P.embeddings_create query EMBEDDING_MODEL with
  | Except.error e => (Except.error e, ⟨[⟨query, EMBEDDING_MODEL⟩], [], []⟩)
  | Except.ok embedding_response =>
    match embedding_response.data with
    | [] => (Except.error Exn.indexError, ⟨[⟨query, EMBEDDING_MODEL⟩], [], []⟩)
    | item :: _ =>
      match P.query_points QDRANT_COLLECTION_NAME item.embedding 4 true with
      | Except.error e =>
        (Except.error e,
         ⟨[⟨query, EMBEDDING_MODEL⟩],
          [⟨QDRANT_COLLECTION_NAME, item.embedding, 4, true⟩], []⟩)
      | Except.ok search_response =>
        if (context_chunks search_response.points).isEmpty then
          (Except.ok (Response.answer REFUSAL_ANSWER),
           ⟨[⟨query, EMBEDDING_MODEL⟩],
            [⟨QDRANT_COLLECTION_NAME, item.embedding, 4, true⟩], []⟩)
        else
          match pyJoin CONTEXT_DELIMITER (context_chunks search_response.points) with
          | Except.error e =>
            (Except.error e,
             ⟨[⟨query, EMBEDDING_MODEL⟩],
              [⟨QDRANT_COLLECTION_NAME, item.embedding, 4, true⟩], []⟩)
          | Except.ok combined_context =>
            match P.chat_completions_create
                [⟨"system", rag_system_prompt⟩,
                 ⟨"user", rag_user_content combined_context query⟩] LLM_MODEL with
            | Except.error e =>
              (Except.error e,
               ⟨[⟨query, EMBEDDING_MODEL⟩],
                [⟨QDRANT_COLLECTION_NAME, item.embedding, 4, true⟩],
                [⟨[⟨"system", rag_system_prompt⟩,
                   ⟨"user", rag_user_content combined_context query⟩], LLM_MODEL⟩]⟩)
            | Except.ok chat_completion =>
              match chat_completion.choices with
              | [] =>
                (Except.error Exn.indexError,
                 ⟨[⟨query, EMBEDDING_MODEL⟩],
                  [⟨QDRANT_COLLECTION_NAME, item.embedding, 4, true⟩],
                  [⟨[⟨"system", rag_system_prompt⟩,
                     ⟨"user", rag_user_content combined_context query⟩], LLM_MODEL⟩]⟩)
              | c :: _ =>
                (Except.ok (Response.answer c.message_content),
                 ⟨[⟨query, EMBEDDING_MODEL⟩],
                  [⟨QDRANT_COLLECTION_NAME, item.embedding, 4, true⟩],
                  [⟨[⟨"system", rag_system_prompt⟩,
                     ⟨"user", rag_user_content combined_context query⟩], LLM_MODEL⟩]⟩)

/-- The /chat handler (rag_chat): runs the try block; any exception is caught,
logged with a full traceback, and converted to HTTPException(500) with the
fixed generic detail. Returns response, call trace and log events. -/
def rag_chat (P : Providers) (query : String) : Response × Trace × List LogEvent :=
  match rag_chat_try P query with
  | (Except.ok r, t) => (r, t, [])
  | (Except.error e, t) =>
    (Response.httpError 500 CHAT_ERROR_DETAIL, t, [LogEvent.fullTraceback e])

/-- Body of the try block of the /chat/selective handler (lines 129 to 147):
build the selective system prompt and call the generation model. -/
def selective_try (P : Providers) (query context : String) :
    Except Exn Response × Trace :=
  match P.chat_completions_create
      [⟨"system", selective_system_prompt context⟩, ⟨"user", query⟩] LLM_MODEL with
  | Except.error e =>
    (Except.error e,
     ⟨[], [],
      [⟨[⟨"system", selective_system_prompt context⟩, ⟨"user", query⟩], LLM_MODEL⟩]⟩)
  | Except.ok chat_completion =>
    match chat_completion.choices with
    | [] =>
      (Except.error Exn.indexError,
       ⟨[], [],
        [⟨[⟨"system", selective_system_prompt context⟩, ⟨"user", query⟩], LLM_MODEL⟩]⟩)
    | c :: _ =>
      (Except.ok (Response.answer c.message_content),
       ⟨[], [],
        [⟨[⟨"system", selective_system_prompt context⟩, ⟨"user", query⟩], LLM_MODEL⟩]⟩)

/-- The /chat/selective handler (selective_context_chat): runs the try block;
any exception is caught, logged message-only, and converted to
HTTPException(500) with its own fixed generic detail. -/
def selective_context_chat (P : Providers) (query context : String) :
    Response × Trace × List LogEvent :=
  match selective_try P query context with
  | (Except.ok r, t) => (r, t, [])
  | (Except.error e, t) =>
    (Response.httpError 500 SELECTIVE_ERROR_DETAIL, t, [LogEvent.messageOnly e])

/-- Lookup of an environment variable (os.environ access), absent when unset. -/
def envGet (env : List (String × String)) (k : String) : Option String :=
  (env.find? (fun p => p.fst == k)).map Prod.snd

/-- The secrets loaded at startup (lines 41 to 46). -/
structure Config where
  openai_api_key : String
  qdrant_url : String
  qdrant_api_key : String
deriving DecidableEq

/-- The RuntimeError message raised when a required environment variable is
unset: the f-string interpolates str(KeyError), which quotes the key. -/
def missingEnvMsg (v : String) : String :=
  "Environment variable \x27" ++ v ++ "\x27 not set. Check your .env file."

/-- The three environment variables read at startup, in program order. -/
def requiredEnvVars : List String :=
  ["OPENAI_API_KEY", "QDRANT_URL", "QDRANT_API_KEY"]

/-- Module-level configuration loading (lines 41 to 46): reading the three
variables inside one try block, a KeyError on the first absent one becomes a
RuntimeError naming it; on success the process holds the three secrets. -/
def loadConfig (env : List (String × String)) : Except String Config :=
  match envGet env "OPENAI_API_KEY" with
  | none => Except.error (missingEnvMsg "OPENAI_API_KEY")
  | some k =>
    match envGet env "QDRANT_URL" with
    | none => Except.error (missingEnvMsg "QDRANT_URL")
    | some u =>
      match envGet env "QDRANT_API_KEY" with
      | none => Except.error (missingEnvMsg "QDRANT_API_KEY")
      | some qk => Except.ok ⟨k, u, qk⟩

/-- Stub provider set built from three fixed call results. -/
def mkProviders (er : Except Exn EmbeddingsResponse)
    (sr : Except Exn QueryResponse) (cr : Except Exn ChatCompletion) : Providers :=
  ⟨fun _ _ => er, fun _ _ _ _ => sr, fun _ _ => cr⟩

/-- An embeddings response holding one vector, used by concrete stubs. -/
def embedOk1 : Except Exn EmbeddingsResponse := Except.ok ⟨[⟨[1]⟩]⟩

/-- A chat completion holding one configured response, used by concrete stubs. -/
def chatOkStub : Except Exn ChatCompletion := Except.ok ⟨[⟨"stub answer"⟩]⟩

/-- Stub providers whose vector search returns the empty point list. -/
def providersEmptySearch : Providers :=
  mkProviders embedOk1 (Except.ok ⟨[]⟩) chatOkStub

/-- Stub providers whose embedding call raises. -/
def providersEmbedFail : Providers :=
  mkProviders (Except.error (Exn.provider "connection refused"))
    (Except.ok ⟨[]⟩) chatOkStub

/-- Stub providers whose vector search returns one chunk with text "T". -/
def providersOneChunk : Providers :=
  mkProviders embedOk1 (Except.ok ⟨[⟨some [("text", "T")]⟩]⟩) chatOkStub

/-- Stub providers whose chat completion call raises. -/
def providersChatFail : Providers :=
  mkProviders embedOk1 (Except.ok ⟨[⟨some [("text", "T")]⟩]⟩)
    (Except.error (Exn.provider "boom"))

/-- Stub providers whose search returns one chunk whose non-empty payload
lacks the text key. -/
def providersNoTextKey : Providers :=
  mkProviders embedOk1 (Except.ok ⟨[⟨some [("page", "7")]⟩]⟩) chatOkStub

/-- A process environment missing OPENAI_API_KEY. -/
def envMissingKey : List (String × String) :=
  [("QDRANT_URL", "http://localhost:6333"), ("QDRANT_API_KEY", "qk")]

/-- A concrete point list mixing text-bearing and absent payloads. -/
def hitsMixed : List ScoredPoint :=
  [⟨some [("text", "A")]⟩, ⟨none⟩, ⟨some [("text", "B")]⟩]

/-- The texts of the surviving chunks in provider-returned order, as the spec
describes them: a chunk survives when its payload is a non-empty mapping, and
contributes its text field. -/
def survivorTexts (hits : List ScoredPoint) : List String :=
  hits.filterMap (fun p =>
    match p.payload with
    | none => none
    | some d => if d.isEmpty then none else dictGet d "text")

theorem rag_chat_of_try_ok (P : Providers) (q : String) (r : Response) (t : Trace)
    (h : rag_chat_try P q = (Except.ok r, t)) : rag_chat P q = (r, t, []) := by
  simp [rag_chat, h]

theorem context_chunks_nil_of_falsy (hits : List ScoredPoint)
    (h : ∀ p ∈ hits, payloadTruthy p.payload = false) :
    context_chunks hits = [] := by
  unfold context_chunks
  rw [List.filter_eq_nil_iff.mpr ?_]
  · rfl
  · intro a ha
    simp [h a ha]

/-- C1: if the vector search returns zero payload-bearing chunks (every
returned point has an absent or empty payload), the /chat handler returns
exactly the fixed refusal string and makes no generation call. -/
theorem rag_chat_refusal_on_empty_retrieval
    (P : Providers) (q : String) (er : EmbeddingsResponse) (item : EmbeddingItem)
    (rest : List EmbeddingItem) (sr : QueryResponse)
    (h1 : P.embeddings_create q EMBEDDING_MODEL = Except.ok er)
    (h2 : er.data = item :: rest)
    (h3 : P.query_points QDRANT_COLLECTION_NAME item.embedding 4 true = Except.ok sr)
    (h4 : ∀ p ∈ sr.points, payloadTruthy p.payload = false) :
    (rag_chat P q).1 = Response.answer REFUSAL_ANSWER ∧
    (rag_chat P q).2.1.genCalls = [] := by
  have hcc : context_chunks sr.points = [] := context_chunks_nil_of_falsy _ h4
  have htry : rag_chat_try P q =
      (Except.ok (Response.answer REFUSAL_ANSWER),
       ⟨[⟨q, EMBEDDING_MODEL⟩],
        [⟨QDRANT_COLLECTION_NAME, item.embedding, 4, true⟩], []⟩) := by
    simp only [rag_chat_try, h1, h2, h3, hcc, List.isEmpty_nil, if_true]
  rw [rag_chat_of_try_ok P q _ _ htry]
  exact ⟨rfl, rfl⟩

/-- Witness for C1 at concrete stub providers returning an empty point list. -/
theorem rag_chat_refusal_on_empty_retrieval_witness :
    (rag_chat providersEmptySearch "anything").1 = Response.answer REFUSAL_ANSWER ∧
    (rag_chat providersEmptySearch "anything").2.1.genCalls = [] :=
  rag_chat_refusal_on_empty_retrieval providersEmptySearch "anything"
    ⟨[⟨[1]⟩]⟩ ⟨[1]⟩ [] ⟨[]⟩ rfl rfl rfl (by intro p hp; cases hp)

/-- C4: any exception raised inside the /chat try block is caught at the
handler boundary, logged with a full traceback, and converted to a single
HTTPException with fixed status 500 and the generic detail string; the
response is the same constant for every exception, so no upstream exception
text reaches the caller, and no partial result accompanies it. -/
theorem rag_chat_exception_to_500 (P : Providers) (q : String) (e : Exn) (t : Trace)
    (h : rag_chat_try P q = (Except.error e, t)) :
    rag_chat P q =
      (Response.httpError 500 CHAT_ERROR_DETAIL, t, [LogEvent.fullTraceback e]) := by
  simp [rag_chat, h]

/-- Witness for C4 at a concrete stub whose embedding call raises. -/
theorem rag_chat_exception_to_500_witness :
    rag_chat providersEmbedFail "q" =
      (Response.httpError 500 CHAT_ERROR_DETAIL,
       ⟨[⟨"q", EMBEDDING_MODEL⟩], [], []⟩,
       [LogEvent.fullTraceback (Exn.provider "connection refused")]) :=
  rag_chat_exception_to_500 providersEmbedFail "q"
    (Exn.provider "connection refused") ⟨[⟨"q", EMBEDDING_MODEL⟩], [], []⟩ rfl

theorem rag_chat_trace_eq (P : Providers) (q : String) :
    (rag_chat P q).2.1 = (rag_chat_try P q).2 := by
  simp only [rag_chat]
  rcases rag_chat_try P q with ⟨r, t⟩
  cases r <;> rfl

theorem selective_trace_eq (P : Providers) (q ctx : String) :
    (selective_context_chat P q ctx).2.1 = (selective_try P q ctx).2 := by
  simp only [selective_context_chat]
  rcases selective_try P q ctx with ⟨r, t⟩
  cases r <;> rfl

theorem pySeq_map_some (l : List String) : pySeq (l.map some) = some l := by
  induction l with
  | nil => rfl
  | cons x xs ih => simp [pySeq, ih]

theorem pySeq_none_of_mem (l : List (Option String)) (h : none ∈ l) :
    pySeq l = none := by
  induction l with
  | nil => cases h
  | cons x xs ih =>
    cases x with
    | none => rfl
    | some s =>
      have h1 : none ∈ xs := by
        rcases List.mem_cons.mp h with h1 | h1
        · simp at h1
        · exact h1
      simp [pySeq, ih h1]

theorem pyJoin_map_some (sep : String) (l : List String) :
    pyJoin sep (l.map some) = Except.ok (String.intercalate sep l) := by
  unfold pyJoin
  rw [pySeq_map_some]

theorem context_chunks_eq_map_some (hits : List ScoredPoint)
    (h : ∀ p ∈ hits, payloadTruthy p.payload = true →
      (p.payload.bind (fun d => dictGet d "text")).isSome = true) :
    context_chunks hits = (survivorTexts hits).map some := by
  induction hits with
  | nil => rfl
  | cons p ps ih =>
    have hps : ∀ r ∈ ps, payloadTruthy r.payload = true →
        (r.payload.bind (fun d => dictGet d "text")).isSome = true :=
      fun r hr => h r (List.mem_cons_of_mem p hr)
    have ihe := ih hps
    cases hp : p.payload with
    | none =>
      have e1 : context_chunks (p :: ps) = context_chunks ps := by
        simp [context_chunks, List.filter_cons, payloadTruthy, hp]
      have e2 : survivorTexts (p :: ps) = survivorTexts ps := by
        simp [survivorTexts, List.filterMap_cons, hp]
      rw [e1, e2, ihe]
    | some d =>
      cases hde : d.isEmpty with
      | true =>
        have hdnil : d = [] := List.isEmpty_iff.mp hde
        have e1 : context_chunks (p :: ps) = context_chunks ps := by
          simp [context_chunks, List.filter_cons, payloadTruthy, hp, hdnil]
        have e2 : survivorTexts (p :: ps) = survivorTexts ps := by
          simp [survivorTexts, List.filterMap_cons, hp, hdnil]
        rw [e1, e2, ihe]
      | false =>
        have hdne : d ≠ [] := by
          intro hh
          rw [hh] at hde
          simp at hde
        have htruthy : payloadTruthy p.payload = true := by
          simp [payloadTruthy, hp, hdne]
        have hsome : (dictGet d "text").isSome = true := by
          simpa [hp] using h p (List.mem_cons_self p ps) htruthy
        rcases Option.isSome_iff_exists.mp hsome with ⟨t, ht⟩
        have e1 : context_chunks (p :: ps) = some t :: context_chunks ps := by
          simp [context_chunks, List.filter_cons, payloadTruthy, hp, hdne, ht]
        have e2 : survivorTexts (p :: ps) = t :: survivorTexts ps := by
          simp [survivorTexts, List.filterMap_cons, hp, hdne, ht]
        rw [e1, e2, ihe, List.map_cons]

/-- C3: whenever each surviving chunk carries a text field, the assembled
context is exactly those text fields joined in provider-returned order with
the one fixed delimiter; a chunk with absent payload is skipped and alters
neither the surviving texts nor the delimiter count. -/
theorem context_assembly_join (hits : List ScoredPoint)
    (h : ∀ p ∈ hits, payloadTruthy p.payload = true →
      (p.payload.bind (fun d => dictGet d "text")).isSome = true) :
    pyJoin CONTEXT_DELIMITER (context_chunks hits) =
      Except.ok (String.intercalate CONTEXT_DELIMITER (survivorTexts hits)) ∧
    context_chunks (⟨none⟩ :: hits) = context_chunks hits := by
  constructor
  · rw [context_chunks_eq_map_some hits h, pyJoin_map_some]
  · simp [context_chunks, List.filter_cons, payloadTruthy]

/-- Witness for C3 at a concrete mixed point list: the context is the two
texts joined by the fixed delimiter. -/
theorem context_assembly_join_witness :
    pyJoin CONTEXT_DELIMITER (context_chunks hitsMixed) =
      Except.ok (String.intercalate CONTEXT_DELIMITER (survivorTexts hitsMixed)) ∧
    context_chunks (⟨none⟩ :: hitsMixed) = context_chunks hitsMixed :=
  context_assembly_join hitsMixed (by decide)

/-- C9: a retrieved chunk whose non-empty payload lacks the text key is not
discarded: it contributes a None entry to the context list, and whenever such
an entry is present the /chat handler returns the generic 500 error response
(the join raises TypeError), not an answer or the refusal string. -/
theorem rag_chat_missing_text_key_500
    (P : Providers) (q : String) (er : EmbeddingsResponse) (item : EmbeddingItem)
    (rest : List EmbeddingItem) (sr : QueryResponse) (p : ScoredPoint)
    (d : List (String × String))
    (h1 : P.embeddings_create q EMBEDDING_MODEL = Except.ok er)
    (h2 : er.data = item :: rest)
    (h3 : P.query_points QDRANT_COLLECTION_NAME item.embedding 4 true = Except.ok sr)
    (hp : p ∈ sr.points) (hd : p.payload = some d) (hne : d ≠ [])
    (ht : dictGet d "text" = none) :
    none ∈ context_chunks sr.points ∧
    (rag_chat P q).1 = Response.httpError 500 CHAT_ERROR_DETAIL := by
  have hmem : none ∈ context_chunks sr.points := by
    unfold context_chunks
    refine List.mem_map.mpr ⟨p, List.mem_filter.mpr ⟨hp, ?_⟩, ?_⟩
    · simp [payloadTruthy, hd, hne]
    · simp [hd, ht]
  refine ⟨hmem, ?_⟩
  have hjoin : pyJoin CONTEXT_DELIMITER (context_chunks sr.points) =
      Except.error Exn.typeError := by
    unfold pyJoin
    rw [pySeq_none_of_mem _ hmem]
  have hnonempty : (context_chunks sr.points).isEmpty = false :=
    List.isEmpty_eq_false.mpr (List.ne_nil_of_mem hmem)
  have htry : rag_chat_try P q =
      (Except.error Exn.typeError,
       ⟨[⟨q, EMBEDDING_MODEL⟩],
        [⟨QDRANT_COLLECTION_NAME, item.embedding, 4, true⟩], []⟩) := by
    simp only [rag_chat_try, h1, h2, h3, hnonempty, Bool.false_eq_true,
      if_false, hjoin]
  simp [rag_chat, htry]

/-- Witness for C9 at a concrete stub returning one chunk whose payload lacks
the text key. -/
theorem rag_chat_missing_text_key_500_witness :
    none ∈ context_chunks (⟨[⟨some [("page", "7")]⟩]⟩ : QueryResponse).points ∧
    (rag_chat providersNoTextKey "q").1 =
      Response.httpError 500 CHAT_ERROR_DETAIL :=
  rag_chat_missing_text_key_500 providersNoTextKey "q"
    ⟨[⟨[1]⟩]⟩ ⟨[1]⟩ [] ⟨[⟨some [("page", "7")]⟩]⟩ ⟨some [("page", "7")]⟩
    [("page", "7")] rfl rfl rfl (List.mem_singleton.mpr rfl) rfl
    (by decide) rfl

/-- C2 counterexample: with a stub search returning one chunk of text "T" and
query "q", the generation provider receives the fixed system instruction (not
containing the context) and a user message "Context:\nT\n\nQuestion: q",
which is not equal to the query, contradicting the claim that the system
message carries the joined context and the user message equals the query. -/
theorem rag_chat_user_message_not_query :
    (rag_chat providersOneChunk "q").2.1.genCalls =
      [⟨[⟨"system", rag_system_prompt⟩,
         ⟨"user", "Context:\nT\n\nQuestion: q"⟩], LLM_MODEL⟩] ∧
    ("Context:\nT\n\nQuestion: q" : String) ≠ "q" :=
  ⟨rfl, by decide⟩

/-- C2 amended: when chunks survive filtering, the generation provider is
sent exactly two messages — the fixed system instruction (which names the
refusal phrase but does not contain the context) and a user message that
embeds the joined context followed by the original query in the form
"Context:\n<context>\n\nQuestion: <query>". -/
theorem rag_chat_generation_messages
    (P : Providers) (q : String) (er : EmbeddingsResponse) (item : EmbeddingItem)
    (rest : List EmbeddingItem) (sr : QueryResponse) (combined : String)
    (h1 : P.embeddings_create q EMBEDDING_MODEL = Except.ok er)
    (h2 : er.data = item :: rest)
    (h3 : P.query_points QDRANT_COLLECTION_NAME item.embedding 4 true = Except.ok sr)
    (h4 : (context_chunks sr.points).isEmpty = false)
    (h5 : pyJoin CONTEXT_DELIMITER (context_chunks sr.points) = Except.ok combined) :
    (rag_chat P q).2.1.genCalls =
      [⟨[⟨"system", rag_system_prompt⟩,
         ⟨"user", "Context:\n" ++ combined ++ "\n\nQuestion: " ++ q⟩],
        LLM_MODEL⟩] := by
  rw [rag_chat_trace_eq]
  simp only [rag_chat_try, h1, h2, h3, h4, Bool.false_eq_true, if_false, h5]
  split
  · rfl
  · split <;> rfl

/-- Witness for the amended C2 at the one-chunk stub. -/
theorem rag_chat_generation_messages_witness :
    (rag_chat providersOneChunk "q").2.1.genCalls =
      [⟨[⟨"system", rag_system_prompt⟩,
         ⟨"user", "Context:\n" ++ "T" ++ "\n\nQuestion: " ++ "q"⟩],
        LLM_MODEL⟩] :=
  rag_chat_generation_messages providersOneChunk "q"
    ⟨[⟨[1]⟩]⟩ ⟨[1]⟩ [] ⟨[⟨some [("text", "T")]⟩]⟩ "T" rfl rfl rfl rfl rfl

/-- C5 counterexample: a /chat failure carries the detail "Failed to process
chat request." while a /chat/selective failure carries "Failed to process
selective chat request."; the two strings differ, so a caller can tell which
operation produced the failure message, contradicting the claim of one
uniform message across both operations. -/
theorem error_details_differ :
    (rag_chat providersEmbedFail "q").1 =
      Response.httpError 500 "Failed to process chat request." ∧
    (selective_context_chat providersChatFail "q" "c").1 =
      Response.httpError 500 "Failed to process selective chat request." ∧
    ("Failed to process chat request." : String) ≠
      "Failed to process selective chat request." :=
  ⟨rfl, rfl, by decide⟩

/-- C5 amended: each operation maps every internal failure to status 500 with
its own fixed generic detail, independent of which step failed, so a caller
cannot tell an embedding failure from a search failure from a generation
failure; the two operations, however, use two different generic details, so
the operation is identifiable from the message. -/
theorem uniform_error_per_operation (P : Providers) (q ctx : String) :
    (∀ e t, rag_chat_try P q = (Except.error e, t) →
      (rag_chat P q).1 = Response.httpError 500 CHAT_ERROR_DETAIL) ∧
    (∀ e t, selective_try P q ctx = (Except.error e, t) →
      (selective_context_chat P q ctx).1 =
        Response.httpError 500 SELECTIVE_ERROR_DETAIL) ∧
    CHAT_ERROR_DETAIL ≠ SELECTIVE_ERROR_DETAIL := by
  refine ⟨?_, ?_, by decide⟩
  · intro e t h
    simp [rag_chat, h]
  · intro e t h
    simp [selective_context_chat, h]

/-- Witness for the amended C5, discharging both inner hypotheses at concrete
failing stubs. -/
theorem uniform_error_per_operation_witness :
    (rag_chat providersEmbedFail "q").1 =
      Response.httpError 500 CHAT_ERROR_DETAIL ∧
    (selective_context_chat providersChatFail "q" "c").1 =
      Response.httpError 500 SELECTIVE_ERROR_DETAIL :=
  ⟨(uniform_error_per_operation providersEmbedFail "q" "c").1
      (Exn.provider "connection refused") ⟨[⟨"q", EMBEDDING_MODEL⟩], [], []⟩ rfl,
   (uniform_error_per_operation providersChatFail "q" "c").2.1
      (Exn.provider "boom")
      ⟨[], [],
       [⟨[⟨"system", selective_system_prompt "c"⟩, ⟨"user", "q"⟩], LLM_MODEL⟩]⟩
      rfl⟩

/-- C6: the /chat/selective handler sends the generation provider exactly two
messages — a system instruction that interpolates the literal caller-supplied
context string and ends by naming the exact refusal phrase, and a user
message equal to the query — and returns the provider text response verbatim
as the answer. -/
theorem selective_chat_messages_and_answer
    (P : Providers) (q ctx : String) (cc : ChatCompletion) (c : ChatChoice)
    (rest : List ChatChoice)
    (h1 : P.chat_completions_create
        [⟨"system", selective_system_prompt ctx⟩, ⟨"user", q⟩] LLM_MODEL =
        Except.ok cc)
    (h2 : cc.choices = c :: rest) :
    selective_context_chat P q ctx =
      (Response.answer c.message_content,
       ⟨[], [],
        [⟨[⟨"system", selective_system_prompt ctx⟩, ⟨"user", q⟩], LLM_MODEL⟩]⟩,
       []) ∧
    selective_system_prompt ctx =
      SELECTIVE_PROMPT_HEAD ++ ctx ++ SELECTIVE_PROMPT_TAIL ∧
    SELECTIVE_PROMPT_TAIL =
      "\x27. Do not use any other knowledge. If the answer is not in this exact text, state, \x27"
        ++ SELECTIVE_REFUSAL ++ "\x27" := by
  refine ⟨?_, rfl, by decide⟩
  simp [selective_context_chat, selective_try, h1, h2]

/-- Witness for C6 at a concrete stub completion. -/
theorem selective_chat_messages_and_answer_witness :
    selective_context_chat providersOneChunk "q" "c" =
      (Response.answer "stub answer",
       ⟨[], [],
        [⟨[⟨"system", selective_system_prompt "c"⟩, ⟨"user", "q"⟩], LLM_MODEL⟩]⟩,
       []) ∧
    selective_system_prompt "c" =
      SELECTIVE_PROMPT_HEAD ++ "c" ++ SELECTIVE_PROMPT_TAIL ∧
    SELECTIVE_PROMPT_TAIL =
      "\x27. Do not use any other knowledge. If the answer is not in this exact text, state, \x27"
        ++ SELECTIVE_REFUSAL ++ "\x27" :=
  selective_chat_messages_and_answer providersOneChunk "q" "c"
    ⟨[⟨"stub answer"⟩]⟩ ⟨"stub answer"⟩ [] rfl rfl

/-- C7: the /chat handler embeds with the literal fixed model id; once the
embedding succeeds it issues exactly one vector-search call, against the
literal fixed collection name, asking for the top 4 neighbors with payloads
attached; and any generation call uses the literal fixed LLM model id. None
of these values is a parameter of the request. -/
theorem rag_chat_fixed_parameters
    (P : Providers) (q : String) (er : EmbeddingsResponse) (item : EmbeddingItem)
    (rest : List EmbeddingItem)
    (h1 : P.embeddings_create q EMBEDDING_MODEL = Except.ok er)
    (h2 : er.data = item :: rest) :
    (rag_chat P q).2.1.embedCalls = [⟨q, "text-embedding-3-small"⟩] ∧
    (rag_chat P q).2.1.searchCalls =
      [⟨"ai-spec-book-collection", item.embedding, 4, true⟩] ∧
    ∀ gc ∈ (rag_chat P q).2.1.genCalls, gc.model = "gpt-3.5-turbo" := by
  simp only [rag_chat_trace_eq]
  simp only [rag_chat_try, h1, h2]
  repeat' split
  all_goals
    refine ⟨rfl, rfl, ?_⟩
  all_goals
    intro gc hgc
  all_goals
    first
    | (rcases List.mem_singleton.mp hgc with rfl; rfl)
    | cases hgc

/-- Witness for C7 at the empty-search stub. -/
theorem rag_chat_fixed_parameters_witness :
    (rag_chat providersEmptySearch "q").2.1.embedCalls =
      [⟨"q", "text-embedding-3-small"⟩] ∧
    (rag_chat providersEmptySearch "q").2.1.searchCalls =
      [⟨"ai-spec-book-collection", [1], 4, true⟩] ∧
    ∀ gc ∈ (rag_chat providersEmptySearch "q").2.1.genCalls,
      gc.model = "gpt-3.5-turbo" :=
  rag_chat_fixed_parameters providersEmptySearch "q" ⟨[⟨[1]⟩]⟩ ⟨[1]⟩ [] rfl rfl

/-- C8: if any one of the three required environment variables is missing,
configuration loading fails with an error whose message names a variable that
is indeed missing (the first missing one in program order), and no
configuration value is produced, so the process never serves traffic and no
missing variable is silently defaulted. -/
theorem loadConfig_fatal_on_missing
    (env : List (String × String)) (v : String)
    (h1 : v ∈ requiredEnvVars) (h2 : envGet env v = none) :
    ∃ w, w ∈ requiredEnvVars ∧ envGet env w = none ∧
      loadConfig env = Except.error (missingEnvMsg w) ∧
      (∃ a b, missingEnvMsg w = a ++ w ++ b) ∧
      ∀ c : Config, loadConfig env ≠ Except.ok c := by
  cases hk : envGet env "OPENAI_API_KEY" with
  | none =>
    have hl : loadConfig env = Except.error (missingEnvMsg "OPENAI_API_KEY") := by
      simp [loadConfig, hk]
    exact ⟨"OPENAI_API_KEY", by decide, hk, hl,
      ⟨"Environment variable \x27", "\x27 not set. Check your .env file.", rfl⟩,
      fun c hc => by rw [hl] at hc; cases hc⟩
  | some k =>
    cases hu : envGet env "QDRANT_URL" with
    | none =>
      have hl : loadConfig env = Except.error (missingEnvMsg "QDRANT_URL") := by
        simp [loadConfig, hk, hu]
      exact ⟨"QDRANT_URL", by decide, hu, hl,
        ⟨"Environment variable \x27", "\x27 not set. Check your .env file.", rfl⟩,
        fun c hc => by rw [hl] at hc; cases hc⟩
    | some u =>
      cases hq : envGet env "QDRANT_API_KEY" with
      | none =>
        have hl : loadConfig env = Except.error (missingEnvMsg "QDRANT_API_KEY") := by
          simp [loadConfig, hk, hu, hq]
        exact ⟨"QDRANT_API_KEY", by decide, hq, hl,
          ⟨"Environment variable \x27", "\x27 not set. Check your .env file.", rfl⟩,
          fun c hc => by rw [hl] at hc; cases hc⟩
      | some qk =>
        exfalso
        have hv : v = "OPENAI_API_KEY" ∨ v = "QDRANT_URL" ∨ v = "QDRANT_API_KEY" := by
          simpa [requiredEnvVars] using h1
        rcases hv with rfl | rfl | rfl
        · rw [h2] at hk
          exact Option.noConfusion hk
        · rw [h2] at hu
          exact Option.noConfusion hu
        · rw [h2] at hq
          exact Option.noConfusion hq

/-- Witness for C8 at an environment missing OPENAI_API_KEY. -/
theorem loadConfig_fatal_on_missing_witness :
    ∃ w, w ∈ requiredEnvVars ∧ envGet envMissingKey w = none ∧
      loadConfig envMissingKey = Except.error (missingEnvMsg w) ∧
      (∃ a b, missingEnvMsg w = a ++ w ++ b) ∧
      ∀ c : Config, loadConfig envMissingKey ≠ Except.ok c :=
  loadConfig_fatal_on_missing envMissingKey "OPENAI_API_KEY" (by decide) rfl

/-- C10: neither handler validates its inputs: for every query string,
including the empty string, the /chat handler proceeds to call the embedding
provider with exactly that query, and for every query and context string,
including empty ones, the /chat/selective handler proceeds to call the
generation provider with exactly those strings; no validation error branch
exists on either path. -/
theorem handlers_no_input_validation (P : Providers) (q ctx : String) :
    (rag_chat P q).2.1.embedCalls = [⟨q, EMBEDDING_MODEL⟩] ∧
    (selective_context_chat P q ctx).2.1.genCalls =
      [⟨[⟨"system", selective_system_prompt ctx⟩, ⟨"user", q⟩], LLM_MODEL⟩] := by
  constructor
  · rw [rag_chat_trace_eq]
    unfold rag_chat_try
    repeat' split
    all_goals rfl
  · rw [selective_trace_eq]
    unfold selective_try
    repeat' split
    all_goals rfl

end ApiServer
